import Mathlib

/-!
Shallow embedding of the `pipers` crate (src/lib.rs): a builder `Pipe` that
chains external commands so that one process's standard output feeds the next
process's standard input.

The operating-system process-spawning facility is an external collaborator of
the crate; the embedding keeps it abstract as a state-passing `Facility`
record.  All builder logic (tokenization, error construction, the order of the
checks in `then`, the wiring of the upstream stdout descriptor into the next
spawn request) is translated directly from the source.  Whitespace splitting
uses ASCII whitespace, an adequate approximation of the source's
`split_whitespace` for every claim below (the claims only depend on the
tokenizer through the embedding's own `splitWhitespace`).
-/

/-- Error kinds of the host I/O error type.  The builder itself only ever
manufactures `other` (the source's `ErrorKind::Other`); spawn failures coming
back from the facility may carry any kind. -/
inductive ErrorKind
  | notFound
  | permissionDenied
  | other
  deriving DecidableEq, Repr

/-- An I/O error value: a kind plus a message, mirroring the information the
source reads from and puts into `std::io::Error`. -/
structure IOError where
  kind : ErrorKind
  msg : String
  deriving DecidableEq, Repr

/-- The capturable standard-output stream of a child process, identified by
its raw file descriptor (the source reads it with `as_raw_fd`). -/
structure ChildStdout where
  fd : Nat
  deriving DecidableEq, Repr

/-- A spawned child process handle.  The source only ever touches the
`stdout` field of `std::process::Child`, so the embedding keeps just that. -/
structure Child where
  stdout : Option ChildStdout
  deriving DecidableEq, Repr

/-- A request handed to the process-spawning facility: program, arguments,
whether standard output is configured capturable (`Stdio::piped()`), and the
raw descriptor bound as the child's standard input (`none` = inherited). -/
structure SpawnReq where
  program : String
  args : List String
  stdoutPiped : Bool
  stdin : Option Nat
  deriving DecidableEq, Repr

/-- The external process-spawning facility, kept abstract: from a facility
state and a request it produces a new state and either a child handle or a
spawn error.  A call that leaves the state unchanged spawned nothing. -/
structure Facility (σ : Type) where
  spawn : σ → SpawnReq → σ × Except IOError Child

deriving instance DecidableEq for Except

/-- The pipeline builder: holds either a successfully spawned child or a
deferred error (the source's `pub struct Pipe { child: Result<Child> }`). -/
structure Pipe where
  child : Except IOError Child
  deriving DecidableEq, Repr

/-- Accumulating worker for `splitWhitespace`: `cur` holds the characters of
the token in progress, in reverse. -/
def splitWhitespaceAux : List Char → List Char → List String
  | [], cur => if cur.isEmpty then [] else [String.mk cur.reverse]
  | c :: rest, cur =>
    if c.isWhitespace then
      if cur.isEmpty then splitWhitespaceAux rest []
      else String.mk cur.reverse :: splitWhitespaceAux rest []
    else splitWhitespaceAux rest (c :: cur)

/-- Whitespace tokenization of a command line, as the source's
`split_whitespace`: maximal runs of non-whitespace characters, so empty
pieces never appear. -/
def splitWhitespace (s : String) : List String :=
  splitWhitespaceAux s.toList []

/-- Helper that wraps an error message in a `Failed` builder (the source's
`pipe_new_error`, which always uses `ErrorKind::Other`). -/
def pipe_new_error (error : String) : Pipe :=
  { child := Except.error { kind := ErrorKind.other, msg := error } }

/-- Helper that passes an already-built result down the chain (the source's
`pipe_error`). -/
def pipe_error (error : Except IOError Child) : Pipe :=
  { child := error }

/-- `Pipe::new`: tokenize the command line; with no token, fail with
"No command as input" without touching the facility; otherwise ask the
facility to spawn the program with piped stdout and inherited stdin. -/
def Pipe.new {σ : Type} (F : Facility σ) (st : σ) (command : String) :
    σ × Pipe :=
  match splitWhitespace command with
  | [] => (st, pipe_new_error "No command as input")
  | cmd :: args =>
    let r := F.spawn st { program := cmd, args := args,
                          stdoutPiped := true, stdin := none }
    (r.1, { child := r.2 })

/-- `Pipe::then`: first propagate a stored failure unchanged, then demand the
upstream child's stdout, then tokenize the new command, and only then ask the
facility to spawn the new program with its stdin bound to the upstream stdout
descriptor and its own stdout piped.  The check order is the source's. -/
def Pipe.«then» {σ : Type} (F : Facility σ) (st : σ) (p : Pipe)
    (command : String) : σ × Pipe :=
  match p.child with
  | Except.error e => (st, pipe_error (Except.error e))
  | Except.ok child =>
    match child.stdout with
    | none => (st, pipe_new_error "No stdout for a command")
    | some stdout =>
      match splitWhitespace command with
      | [] => (st, pipe_new_error "No command as input")
      | cmd :: args =>
        let r := F.spawn st { program := cmd, args := args,
                              stdoutPiped := true, stdin := some stdout.fd }
        (r.1, { child := r.2 })

/-- `Pipe::peek`: a read-only view of the current stage's stdout.  The
embedding is a pure function of the builder, which is exactly the source's
`&self` contract: no mutation, no consumption. -/
def Pipe.peek (p : Pipe) : Except IOError ChildStdout :=
  match p.child with
  | Except.ok child =>
    match child.stdout with
    | some stdout => Except.ok stdout
    | none => Except.error { kind := ErrorKind.other,
                             msg := "No stdout for a command" }
  | Except.error _ => Except.error { kind := ErrorKind.other,
                                     msg := "No stdout for a command" }

/-- `Pipe::finally`: consume the builder and return the stored result. -/
def Pipe.«finally» (p : Pipe) : Except IOError Child :=
  p.child

/-! ### An operating-system model for the end-to-end regression scenario

The spawn facility, the pipes connecting the processes, and the behavior of
the external commands `ls`, `grep` and `head` are collaborators outside the
crate; the following model of them is built from the spec's description of
the collaborators (spec section 6) and of the regression scenario. -/

/-- A process recorded by the modelled operating system: program, arguments,
the descriptor its standard input was bound to (`none` = inherited), and the
fresh descriptor its piped standard output writes to. -/
structure OSProc where
  program : String
  args : List String
  stdinFd : Option Nat
  stdoutFd : Nat
  deriving DecidableEq, Repr

/-- State of the modelled operating system: the next free descriptor and the
processes spawned so far, in spawn order. -/
structure OSState where
  nextFd : Nat
  procs : List OSProc
  deriving DecidableEq, Repr

/-- Modelled from the spec: the operating system's process-spawning facility
(spec section 6), which the crate only calls out to.  Every spawn succeeds,
allocates a fresh pipe descriptor for the child's piped stdout, and records
the process together with the descriptor its stdin was bound to. -/
def osFacility : Facility OSState :=
  { spawn := fun st req =>
      ({ nextFd := st.nextFd + 1,
         procs := st.procs ++ [{ program := req.program, args := req.args,
                                 stdinFd := req.stdin,
                                 stdoutFd := st.nextFd }] },
       Except.ok { stdout := if req.stdoutPiped
                             then some { fd := st.nextFd } else none }) }

/-- Whether `pat` is a prefix of `s`, on character lists. -/
def startsWithChars : List Char → List Char → Bool
  | [], _ => true
  | _ :: _, [] => false
  | a :: as, b :: bs => a == b && startsWithChars as bs

/-- Whether `pat` occurs somewhere in `s`, on character lists. -/
def hasSubChars (pat : List Char) : List Char → Bool
  | [] => pat.isEmpty
  | c :: rest => startsWithChars pat (c :: rest) || hasSubChars pat rest

/-- Substring test used by the modelled `grep`. -/
def containsSub (line pat : String) : Bool :=
  hasSubChars pat.toList line.toList

/-- Splitting a byte stream into lines at newline characters. -/
def splitLinesAux : List Char → List Char → List String
  | [], cur => [String.mk cur.reverse]
  | c :: rest, cur =>
    if c = '\n' then String.mk cur.reverse :: splitLinesAux rest []
    else splitLinesAux rest (c :: cur)

/-- The lines of a byte stream (a trailing newline yields a final empty
piece, which never contains any pattern). -/
def splitLines (s : String) : List String :=
  splitLinesAux s.toList []

/-- Joining lines back into a byte stream, each line followed by a
newline. -/
def joinLines (ls : List String) : String :=
  ls.foldr (fun l acc => l ++ "\n" ++ acc) ""

/-- Modelled from the spec: the listing produced by `ls /` in the
repository's regression scenario.  The spec fixes only that the listing has a
line containing "usr" and that filtering for "usr" and keeping the first byte
yields "u"; a typical root listing with `usr` as its only matching entry
realizes that. -/
def rootListing : List String :=
  ["bin", "boot", "dev", "etc", "home", "lib", "usr", "var"]

/-- Modelled from the spec: the byte streams produced by the external
commands of the regression scenario.  `ls /` writes its listing one entry per
line, `grep pat` keeps the input lines containing `pat`, and `head -c 1`
keeps the first byte of its input.  Any other program produces no output. -/
def interpCmd (program : String) (args : List String) (input : String) :
    String :=
  if program = "ls" ∧ args = ["/"] then
    joinLines rootListing
  else if program = "grep" then
    match args with
    | [pat] => joinLines ((splitLines input).filter (fun l => containsSub l pat))
    | _ => ""
  else if program = "head" ∧ args = ["-c", "1"] then
    String.mk (input.toList.take 1)
  else
    ""

/-- Modelled from the spec: running the recorded processes.  Each process
reads as its standard input exactly the bytes the process writing to its
bound descriptor produced (an unbound or unknown descriptor reads nothing),
and writes its own output to its stdout descriptor.  Returns the association
of stdout descriptors to the bytes written to them. -/
def runProcs (procs : List OSProc) : List (Nat × String) :=
  procs.foldl
    (fun acc p =>
      let input := match p.stdinFd with
        | none => ""
        | some fd => (List.lookup fd acc).getD ""
      acc ++ [(p.stdoutFd, interpCmd p.program p.args input)])
    []

/-- Modelled from the spec: the child handle's collect-all-output-and-wait
operation (spec section 6) reads everything the child wrote to its piped
stdout descriptor. -/
def waitWithOutput (st : OSState) (c : Child) : Option String :=
  match c.stdout with
  | some s => List.lookup s.fd (runProcs st.procs)
  | none => none

/-- The initial operating-system state: descriptors 0, 1, 2 are the standard
streams, so the first pipe descriptor is 3. -/
def osInit : OSState :=
  { nextFd := 3, procs := [] }

/-- The repository's regression pipeline,
`Pipe::new("ls /").then("grep usr").then("head -c 1")`, run against the
modelled operating system. -/
def regressionRun : OSState × Pipe :=
  let r1 := Pipe.new osFacility osInit "ls /"
  let r2 := Pipe.«then» osFacility r1.1 r1.2 "grep usr"
  Pipe.«then» osFacility r2.1 r2.2 "head -c 1"

/-- The bytes collected from the finalized regression pipeline. -/
def regressionOutput : Option String :=
  match regressionRun.2.«finally» with
  | Except.ok c => waitWithOutput regressionRun.1 c
  | Except.error _ => none

/-! ### A descriptor-level model of the hand-off in `then`

Modelled from the spec: the ownership rules of the host's stream handles and
the descriptor behavior of the spawn facility (spec sections 6 and 9) are
outside the crate.  The source's hand-off (line 51 of src/lib.rs)
reconstructs an owned stream from the raw descriptor number taken out of the
upstream stdout handle; the spec's section 9 describes this as aliasing one
descriptor across two ownership domains.  The events below record, in order,
what happens to the upstream stdout descriptor during a successful `then`. -/

inductive FdEvent
  /-- Read the raw descriptor number out of the upstream handle without
  giving up that handle's ownership (`as_raw_fd`). -/
  | readRawFd
  /-- Construct a second owned handle from the bare descriptor number,
  without duplicating the descriptor (`from_raw_fd`). -/
  | reconstructFromRawFd
  /-- Duplicate the descriptor into a fresh, independently-owned
  descriptor (the host's dup primitive).  The source never does this. -/
  | dupFd
  /-- Move the upstream handle's ownership itself into the spawn
  configuration.  The source never does this. -/
  | transferOwnership
  /-- The spawn facility binds the descriptor into the new child as its
  standard input; from here the child holds its own, independent
  descriptor (spec section 6). -/
  | bindStdinAtSpawn
  /-- The reconstructed owner is dropped and closes the descriptor. -/
  | closeReconstructed
  /-- The original upstream stdout handle is dropped at the end of `then`
  and closes the descriptor. -/
  | closeOriginal
  deriving DecidableEq, Repr

/-- The events of the successful `then` path, in source order: read the raw
descriptor, reconstruct an owned handle from it, spawn (binding it into the
child), then both owners are dropped and each closes the descriptor. -/
def thenHandoffEvents : List FdEvent :=
  [FdEvent.readRawFd, FdEvent.reconstructFromRawFd, FdEvent.bindStdinAtSpawn,
   FdEvent.closeReconstructed, FdEvent.closeOriginal]

/-- The hand-off discipline claimed by the spec: the descriptor is duplicated
into an independently-owned descriptor before being bound as the child's
stdin, or the upstream handle's ownership is transferred outright (so the
original owner never separately closes it). -/
def handoffDupOrTransfer (evs : List FdEvent) : Bool :=
  (evs.contains FdEvent.dupFd &&
    decide (evs.indexOf FdEvent.dupFd < evs.indexOf FdEvent.bindStdinAtSpawn)) ||
  (evs.contains FdEvent.transferOwnership &&
    ! evs.contains FdEvent.closeOriginal)

/-- The child's standard input stays valid for the child's lifetime exactly
when the descriptor is bound into the child (which gives the child its own
copy) before any owner in the parent closes it. -/
def childStdinStaysValid (evs : List FdEvent) : Bool :=
  evs.contains FdEvent.bindStdinAtSpawn &&
  decide (evs.indexOf FdEvent.bindStdinAtSpawn <
          evs.indexOf FdEvent.closeReconstructed) &&
  decide (evs.indexOf FdEvent.bindStdinAtSpawn <
          evs.indexOf FdEvent.closeOriginal)

/-- How many parent-side owners close the descriptor: two owners of the same
descriptor exist after the reconstruction, and both close it. -/
def parentCloseCount (evs : List FdEvent) : Nat :=
  (evs.filter (fun e => e == FdEvent.closeReconstructed ||
                        e == FdEvent.closeOriginal)).length

/-- The message carried by a `Failed` builder, if any. -/
def pipeErrMsg (p : Pipe) : Option String :=
  match p.child with
  | Except.error e => some e.msg
  | Except.ok _ => none

/-- A facility on which every spawn fails with the host's
no-such-file error, leaving the facility state untouched. -/
def failFacility : Facility Unit :=
  { spawn := fun st _ =>
      (st, Except.error { kind := ErrorKind.notFound,
                          msg := "No such file or directory" }) }

/-! ## Theorems for the claims -/

/-- C1: failure is absorbing.  A builder already in the `Failed` state is
returned unchanged by `then` for every command string, valid ones included:
the facility state is untouched (so nothing is parsed into a spawn request
and nothing is spawned), the carried error is the same, and `finally` later
surfaces exactly that error; in particular no operation ever moves a builder
from `Failed` back to `Spawned`. -/
theorem then_absorbs_failure {σ : Type} (F : Facility σ) (st : σ)
    (e : IOError) (s : String) :
    Pipe.«then» F st { child := Except.error e } s
      = (st, { child := Except.error e }) ∧
    Pipe.«finally» { child := Except.error e } = Except.error e :=
  ⟨rfl, rfl⟩

/-- C2: end-to-end chaining correctness on the modelled operating system.
Building `new("ls /").then("grep usr").then("head -c 1")`, finalizing and
collecting the output yields exactly "u"; the recorded wiring binds each
stage's standard input to the previous stage's standard output descriptor,
and each stage's output is its command applied to byte-exactly the previous
stage's full output. -/
theorem regression_pipeline_output :
    regressionOutput = some "u" ∧
    regressionRun.1.procs.map OSProc.stdinFd = [none, some 3, some 4] ∧
    regressionRun.1.procs.map OSProc.stdoutFd = [3, 4, 5] ∧
    List.lookup 3 (runProcs regressionRun.1.procs)
      = some (interpCmd "ls" ["/"] "") ∧
    List.lookup 4 (runProcs regressionRun.1.procs)
      = some (interpCmd "grep" ["usr"] (interpCmd "ls" ["/"] "")) ∧
    List.lookup 5 (runProcs regressionRun.1.procs)
      = some (interpCmd "head" ["-c", "1"]
          (interpCmd "grep" ["usr"] (interpCmd "ls" ["/"] ""))) := by
  refine ⟨?_, ?_, ?_, ?_, ?_, ?_⟩ <;> decide

/-- C3: the empty-command rule.  For every command string that tokenizes to
no token, `new` returns the `Failed` builder carrying the
"No command as input" error with the facility state untouched (no process is
spawned), and `then` on a `Spawned` builder whose child has a stdout applies
the same rule, likewise without touching the facility. -/
theorem empty_command_rule {σ : Type} (F : Facility σ) (st : σ)
    (fd : Nat) (s : String) (h : splitWhitespace s = []) :
    Pipe.new F st s = (st, pipe_new_error "No command as input") ∧
    Pipe.«then» F st { child := Except.ok { stdout := some { fd := fd } } } s
      = (st, pipe_new_error "No command as input") := by
  constructor
  · simp only [Pipe.new, h]
  · simp only [Pipe.«then», h]

/-- Witness for C3 at the whitespace-only string " \t ". -/
theorem empty_command_rule_witness :
    Pipe.new failFacility () " \t "
      = ((), pipe_new_error "No command as input") ∧
    Pipe.«then» failFacility ()
        { child := Except.ok { stdout := some { fd := 3 } } } " \t "
      = ((), pipe_new_error "No command as input") :=
  empty_command_rule failFacility () 3 " \t " (by decide)

/-- C4: spawn failures are data.  When the facility rejects the spawn
request produced by `new` or by `then`, the operation returns a builder in
the `Failed` state wrapping exactly the facility's error value (the
embedding is a total function, so no other control path exists), and
`finally` on that builder surfaces that same error. -/
theorem spawn_failure_as_data {σ : Type} (F : Facility σ) (st st' : σ)
    (s cmd : String) (args : List String) (e : IOError) (fd : Nat)
    (htok : splitWhitespace s = cmd :: args) :
    (F.spawn st { program := cmd, args := args,
                  stdoutPiped := true, stdin := none }
        = (st', Except.error e) →
      Pipe.new F st s = (st', { child := Except.error e }) ∧
      Pipe.«finally» (Pipe.new F st s).2 = Except.error e) ∧
    (F.spawn st { program := cmd, args := args,
                  stdoutPiped := true, stdin := some fd }
        = (st', Except.error e) →
      Pipe.«then» F st
          { child := Except.ok { stdout := some { fd := fd } } } s
        = (st', { child := Except.error e }) ∧
      Pipe.«finally»
          (Pipe.«then» F st
            { child := Except.ok { stdout := some { fd := fd } } } s).2
        = Except.error e) := by
  constructor
  · intro hspawn
    constructor
    · simp only [Pipe.new, htok, hspawn]
    · simp only [Pipe.new, Pipe.«finally», htok, hspawn]
  · intro hspawn
    constructor
    · simp only [Pipe.«then», htok, hspawn]
    · simp only [Pipe.«then», Pipe.«finally», htok, hspawn]

/-- Witness for C4 on the always-failing facility at the command
"nosuchprogram". -/
theorem spawn_failure_as_data_witness :
    (Pipe.new failFacility () "nosuchprogram"
      = ((), { child := Except.error { kind := ErrorKind.notFound,
                                       msg := "No such file or directory" } })) ∧
    (Pipe.«then» failFacility ()
        { child := Except.ok { stdout := some { fd := 3 } } } "nosuchprogram"
      = ((), { child := Except.error { kind := ErrorKind.notFound,
                                       msg := "No such file or directory" } })) :=
  ⟨((spawn_failure_as_data failFacility () () "nosuchprogram" "nosuchprogram"
      [] { kind := ErrorKind.notFound, msg := "No such file or directory" } 3
      (by decide)).1 rfl).1,
   ((spawn_failure_as_data failFacility () () "nosuchprogram" "nosuchprogram"
      [] { kind := ErrorKind.notFound, msg := "No such file or directory" } 3
      (by decide)).2 rfl).1⟩

/-- C5: a `Spawned` builder whose child has no output stream makes `then`
fail, for every command string, with the fixed error of kind `other` and
message "No stdout for a command", the facility state untouched; any error
value whose message differs — as the facility's spawn errors do — is a
different value, so the failure is distinguishable from a spawn failure at
the message level. -/
theorem then_no_stdout {σ : Type} (F : Facility σ) (st : σ) (s : String) :
    Pipe.«then» F st { child := Except.ok { stdout := none } } s
      = (st, pipe_new_error "No stdout for a command") ∧
    (pipe_new_error "No stdout for a command").child
      = Except.error { kind := ErrorKind.other,
                       msg := "No stdout for a command" } ∧
    (∀ e : IOError, (e.msg == "No stdout for a command") = false →
      (e == { kind := ErrorKind.other,
              msg := "No stdout for a command" }) = false) := by
  refine ⟨rfl, rfl, ?_⟩
  intro e hmsg
  cases e with
  | mk k m =>
    cases hk : (k == ErrorKind.other) <;>
      simp_all [instBEqOfDecidableEq, IOError.mk.injEq]

/-- Witness for C5 on the always-failing facility: the spawn error recorded
by `failFacility` differs from the no-output-stream error. -/
theorem then_no_stdout_witness :
    Pipe.«then» failFacility () { child := Except.ok { stdout := none } } "wc"
      = ((), pipe_new_error "No stdout for a command") ∧
    (({ kind := ErrorKind.notFound,
        msg := "No such file or directory" } : IOError)
      == { kind := ErrorKind.other, msg := "No stdout for a command" })
      = false :=
  ⟨(then_no_stdout failFacility () "wc").1,
   (then_no_stdout failFacility () "wc").2.2
     { kind := ErrorKind.notFound, msg := "No such file or directory" }
     (by decide)⟩

/-- C6: `peek` succeeds exactly when the builder holds a spawned child with
an available stdout, in which case it returns the stored stream itself (a
pure function of the builder, so repeated calls return the same stream and
nothing is consumed, closed or mutated); in every other case it returns the
fixed "No stdout for a command" error. -/
theorem peek_spec (p : Pipe) :
    ((∃ s, p.peek = Except.ok s) ↔
      (∃ c s, p.child = Except.ok c ∧ c.stdout = some s)) ∧
    (∀ c s, p.child = Except.ok c → c.stdout = some s →
      p.peek = Except.ok s) ∧
    (¬ (∃ c s, p.child = Except.ok c ∧ c.stdout = some s) →
      p.peek = Except.error { kind := ErrorKind.other,
                              msg := "No stdout for a command" }) := by
  obtain ⟨ch⟩ := p
  cases ch with
  | error e =>
    refine ⟨⟨?_, ?_⟩, ?_, ?_⟩
    · rintro ⟨s, hs⟩; exact absurd hs (by simp [Pipe.peek])
    · rintro ⟨c, s, hc, _⟩; exact absurd hc (by simp)
    · intro c s hc; exact absurd hc (by simp)
    · intro _; rfl
  | ok c =>
    cases hso : c.stdout with
    | none =>
      refine ⟨⟨?_, ?_⟩, ?_, ?_⟩
      · rintro ⟨s, hs⟩
        simp [Pipe.peek, hso] at hs
      · rintro ⟨c', s, hc, hs⟩
        cases hc; simp [hso] at hs
      · intro c' s hc hs; cases hc; simp [hso] at hs
      · intro _; simp [Pipe.peek, hso]
    | some s0 =>
      refine ⟨⟨?_, ?_⟩, ?_, ?_⟩
      · intro _; exact ⟨c, s0, rfl, hso⟩
      · intro _; exact ⟨s0, by simp [Pipe.peek, hso]⟩
      · intro c' s hc hs; cases hc; rw [hs] at hso; cases hso
        simp [Pipe.peek, hs]
      · intro h; exact absurd ⟨c, s0, rfl, hso⟩ h

/-- Witness for C6 at a spawned builder with stdout descriptor 3 and at a
failed builder. -/
theorem peek_spec_witness :
    Pipe.peek { child := Except.ok { stdout := some { fd := 3 } } }
      = Except.ok { fd := 3 } ∧
    Pipe.peek { child := Except.error { kind := ErrorKind.notFound,
                                        msg := "boom" } }
      = Except.error { kind := ErrorKind.other,
                       msg := "No stdout for a command" } :=
  ⟨(peek_spec { child := Except.ok { stdout := some { fd := 3 } } }).2.1
     { stdout := some { fd := 3 } } { fd := 3 } rfl rfl,
   (peek_spec { child := Except.error { kind := ErrorKind.notFound,
                                        msg := "boom" } }).2.2
     (by rintro ⟨c, s, hc, _⟩; cases hc)⟩

/-- C7: `finally` consumes the builder and returns exactly the stored state:
the terminal child handle when `Spawned`, the accumulated error when
`Failed`.  The embedding of `finally` takes no facility argument at all, so
it can spawn nothing and wait on nothing, and it returns the stored value
unaltered. -/
theorem finally_returns_stored (c : Child) (e : IOError) :
    Pipe.«finally» { child := Except.ok c } = Except.ok c ∧
    Pipe.«finally» { child := Except.error e } = Except.error e :=
  ⟨rfl, rfl⟩

/-- C9: the checks in `then` run in the fixed order failed-propagation,
stdout availability, tokenization: a `Failed` builder short-circuits for
every string, and a `Spawned` builder without stdout yields the
no-output-stream failure for every string, the empty string included — its
message is "No stdout for a command", not the empty-command message
"No command as input", and the two message strings differ. -/
theorem then_check_order {σ : Type} (F : Facility σ) (st : σ)
    (e : IOError) (s : String) :
    Pipe.«then» F st { child := Except.error e } s
      = (st, { child := Except.error e }) ∧
    Pipe.«then» F st { child := Except.ok { stdout := none } } s
      = (st, pipe_new_error "No stdout for a command") ∧
    pipeErrMsg (pipe_new_error "No stdout for a command")
      = some "No stdout for a command" ∧
    pipeErrMsg (pipe_new_error "No command as input")
      = some "No command as input" ∧
    (("No stdout for a command" : String) == "No command as input") = false :=
  ⟨rfl, rfl, rfl, rfl, by decide⟩

/-- C10: every error the builder manufactures itself — empty command in
`new`, empty command and missing stdout in `then`, and both `peek` failure
cases — carries kind `other`, so the empty-command and no-output-stream
cases differ only in their message strings, which are "No command as input"
and "No stdout for a command". -/
theorem builder_errors_same_kind {σ : Type} (F : Facility σ) (st : σ)
    (fd : Nat) :
    (Pipe.new F st "").2 = pipe_new_error "No command as input" ∧
    (Pipe.«then» F st
        { child := Except.ok { stdout := some { fd := fd } } } "").2
      = pipe_new_error "No command as input" ∧
    (Pipe.«then» F st { child := Except.ok { stdout := none } } "wc").2
      = pipe_new_error "No stdout for a command" ∧
    (pipe_new_error "No command as input").child
      = Except.error { kind := ErrorKind.other,
                       msg := "No command as input" } ∧
    (pipe_new_error "No stdout for a command").child
      = Except.error { kind := ErrorKind.other,
                       msg := "No stdout for a command" } ∧
    Pipe.peek { child := Except.ok { stdout := none } }
      = Except.error { kind := ErrorKind.other,
                       msg := "No stdout for a command" } ∧
    Pipe.peek { child := Except.error { kind := ErrorKind.other,
                                        msg := "No command as input" } }
      = Except.error { kind := ErrorKind.other,
                       msg := "No stdout for a command" } ∧
    (("No command as input" : String) == "No stdout for a command") = false :=
  ⟨rfl, rfl, rfl, rfl, rfl, rfl, rfl, by decide⟩

/-- C8 counterexample: the hand-off recorded for the successful `then` path
neither duplicates the upstream stdout descriptor before it is bound as the
new child's standard input nor transfers the upstream handle's ownership
outright — the source reconstructs a second owner from the raw descriptor
number instead. -/
theorem handoff_not_dup_or_transfer :
    handoffDupOrTransfer thenHandoffEvents = false := by decide

/-- C8 amended: the hand-off aliases the descriptor by reconstructing a
second owned handle from the raw descriptor number; the new child's standard
input nonetheless stays valid for the child's entire lifetime because the
spawn facility binds the descriptor into the child before either parent-side
owner closes it, after which both parent-side owners close the same
descriptor. -/
theorem handoff_alias_keeps_child_valid :
    thenHandoffEvents.contains FdEvent.reconstructFromRawFd = true ∧
    thenHandoffEvents.contains FdEvent.dupFd = false ∧
    childStdinStaysValid thenHandoffEvents = true ∧
    parentCloseCount thenHandoffEvents = 2 := by decide
